import Mathlib

/-!
Verification of the external-resource lifecycle adapters of the
cloudcomponents CDK constructs repository.

The development shallowly embeds the three Lambda handlers that carry the
repository's non-declarative logic:

* `StripeWebhook` — the custom-resource lifecycle adapter for Stripe webhook
  endpoints (src/packages/cdk-stripe-webhook/src/lambdas/stripe-webhook/index.ts);
* `StripeEventBusProducer` — the API-Gateway handler that verifies incoming
  Stripe webhook signatures and forwards events to EventBridge
  (src/packages/cdk-stripe-webhook/src/lambdas/stripe-event-bus-producer/index.ts);
* `WithConfiguration` — the Lambda configuration-injection custom resource with
  its status-polling loop
  (src/packages/cdk-lambda-at-edge-pattern/src/lambdas/with-configuration/index.ts).

External services (the Stripe API, the secret store, EventBridge, the AWS
Lambda control plane) are modelled as oracles: records of functions supplied
as an environment argument. Each handler additionally returns the trace of the
external calls it issued, together with the retry configuration each call was
given, so that properties about which calls are made and how they are
configured are stated about the trace.
-/

namespace StripeWebhook

/-- Retry configuration handed to `SecretKey` / `SecretKeyStore`
(`{ configuration: { maxAttempts: 5 } }` in the source). -/
structure RetryConfiguration where
  maxAttempts : Nat
deriving Repr, DecidableEq

/-- Per-request options handed to the Stripe SDK calls
(`{ maxNetworkRetries: 5 }` in the source). -/
structure RequestOptions where
  maxNetworkRetries : Nat
deriving Repr, DecidableEq

/-- The camelized resource properties of the custom resource
(`WebhookProps` in the source). `endpointSecretStoreString` and
`description` are optional; JS `undefined` is modelled as `none`. -/
structure WebhookProps where
  secretKeyString : String
  endpointSecretStoreString : Option String
  url : String
  description : Option String
  events : List String
deriving Repr, DecidableEq

/-- A Stripe webhook-endpoint object as returned by the Stripe API.
`secret` is the signing secret, present on freshly created endpoints;
a deleted field is modelled as `none`. -/
structure WebhookEndpoint where
  id : String
  url : String
  description : Option String
  enabled_events : List String
  secret : Option String
deriving Repr, DecidableEq

/-- Parameters of `stripe.webhookEndpoints.create`. -/
structure CreateParams where
  url : String
  description : Option String
  enabled_events : List String
deriving Repr, DecidableEq

/-- Parameters of `stripe.webhookEndpoints.update` (same shape as create). -/
structure UpdateParams where
  url : String
  description : Option String
  enabled_events : List String
deriving Repr, DecidableEq

/-- Errors raised by the Stripe SDK, as far as the handlers can observe
them: `resourceMissing` is the invalid-request error with code
`resource_missing` that the API reports when the addressed endpoint does
not exist; `apiConnection` covers transport-layer faults (timeouts,
connection errors); `invalidRequest` covers other validation errors. -/
inductive StripeErr where
  | resourceMissing (id : String)
  | apiConnection (msg : String)
  | invalidRequest (msg : String)
deriving Repr, DecidableEq

/-- Human-readable message of a Stripe error (the `message` property the
JS error object carries). -/
def stripeErrMessage : StripeErr → String
  | StripeErr.resourceMissing id => "No such webhook endpoint: " ++ id
  | StripeErr.apiConnection m => m
  | StripeErr.invalidRequest m => m

/-- An error escaping one of the lifecycle handlers: either secret
resolution failed or a Stripe call threw. -/
inductive HandlerErr where
  | secretErr (msg : String)
  | stripeErr (e : StripeErr)
deriving Repr, DecidableEq

/-- Human-readable message of a handler error. -/
def errMessage : HandlerErr → String
  | HandlerErr.secretErr m => m
  | HandlerErr.stripeErr e => stripeErrMessage e

/-- One external call issued by a handler, recorded together with the
retry configuration it was given. -/
inductive ExtCall where
  | resolveSecret (locator : String) (config : RetryConfiguration)
  | stripeCreate (params : CreateParams) (opts : RequestOptions)
  | stripeUpdate (id : String) (params : UpdateParams) (opts : RequestOptions)
  | stripeDelete (id : String) (opts : RequestOptions)
  | storeSecret (locator : String) (config : RetryConfiguration)
deriving Repr, DecidableEq

/-- The retry budget a recorded call was configured with
(`maxAttempts` for secret operations, `maxNetworkRetries` for Stripe calls). -/
def callBudget : ExtCall → Nat
  | ExtCall.resolveSecret _ c => c.maxAttempts
  | ExtCall.stripeCreate _ o => o.maxNetworkRetries
  | ExtCall.stripeUpdate _ _ o => o.maxNetworkRetries
  | ExtCall.stripeDelete _ o => o.maxNetworkRetries
  | ExtCall.storeSecret _ c => c.maxAttempts

/-- Oracle for the external world: secret resolution (`SecretKey.getValue`),
the Stripe API (keyed by the resolved API key), and the secret store
(`SecretKeyStore.putSecret`). -/
structure StripeEnv where
  getSecretValue : String → Except String String
  createEndpoint : String → CreateParams → Except StripeErr WebhookEndpoint
  updateEndpoint : String → String → UpdateParams → Except StripeErr WebhookEndpoint
  deleteEndpoint : String → String → Except StripeErr Unit
  putSecret : String → String → Except String Unit

/-- The value a successful create/update handler returns to the lifecycle
wrapper (`ResourceHandlerReturn` in the source): the physical resource id
and the spread response data. -/
structure ResourceHandlerReturn where
  physicalResourceId : String
  responseData : WebhookEndpoint
deriving Repr, DecidableEq

/-- The retry configuration literal used for every `SecretKey` /
`SecretKeyStore` construction in the source. -/
def secretCfg : RetryConfiguration := { maxAttempts := 5 }

/-- The request-options literal used for every Stripe call in the source. -/
def stripeOpts : RequestOptions := { maxNetworkRetries := 5 }

/-- `handleCreate`: resolve the API secret, create the endpoint, and — when
an endpoint-secret store locator was supplied and the response carries a
signing secret — store the secret and delete it from the response data
(`if (endpointSecretStoreString && data.secret) { ... delete data.secret }`).
Returns the handler outcome and the trace of external calls issued. -/
def handleCreate (env : StripeEnv) (props : WebhookProps) :
    Except HandlerErr ResourceHandlerReturn × List ExtCall :=
  let calls0 := [ExtCall.resolveSecret props.secretKeyString secretCfg]
  match env.getSecretValue props.secretKeyString with
  | Except.error e => (Except.error (HandlerErr.secretErr e), calls0)
  | Except.ok value =>
    let params : CreateParams :=
      { url := props.url, description := props.description, enabled_events := props.events }
    let calls1 := calls0 ++ [ExtCall.stripeCreate params stripeOpts]
    match env.createEndpoint value params with
    | Except.error e => (Except.error (HandlerErr.stripeErr e), calls1)
    | Except.ok data =>
      match props.endpointSecretStoreString, data.secret with
      | some store, some secret =>
        let calls2 := calls1 ++ [ExtCall.storeSecret store secretCfg]
        match env.putSecret store secret with
        | Except.error e => (Except.error (HandlerErr.secretErr e), calls2)
        | Except.ok _ =>
          (Except.ok { physicalResourceId := data.id,
                       responseData := { data with secret := none } }, calls2)
      | _, _ =>
        (Except.ok { physicalResourceId := data.id, responseData := data }, calls1)

/-- `handleUpdate`: resolve the API secret and issue the update call scoped
by `event.PhysicalResourceId`; the returned physical id is the id of the
response object. -/
def handleUpdate (env : StripeEnv) (physicalResourceId : String) (props : WebhookProps) :
    Except HandlerErr ResourceHandlerReturn × List ExtCall :=
  let calls0 := [ExtCall.resolveSecret props.secretKeyString secretCfg]
  match env.getSecretValue props.secretKeyString with
  | Except.error e => (Except.error (HandlerErr.secretErr e), calls0)
  | Except.ok value =>
    let params : UpdateParams :=
      { url := props.url, description := props.description, enabled_events := props.events }
    let calls1 := calls0 ++ [ExtCall.stripeUpdate physicalResourceId params stripeOpts]
    match env.updateEndpoint value physicalResourceId params with
    | Except.error e => (Except.error (HandlerErr.stripeErr e), calls1)
    | Except.ok data =>
      (Except.ok { physicalResourceId := data.id, responseData := data }, calls1)

/-- `handleDelete`: resolve the API secret and issue the delete call scoped
by `event.PhysicalResourceId`. Any error the delete call raises
propagates; the source contains no handling of an already-absent
resource. -/
def handleDelete (env : StripeEnv) (physicalResourceId : String) (props : WebhookProps) :
    Except HandlerErr Unit × List ExtCall :=
  let calls0 := [ExtCall.resolveSecret props.secretKeyString secretCfg]
  match env.getSecretValue props.secretKeyString with
  | Except.error e => (Except.error (HandlerErr.secretErr e), calls0)
  | Except.ok value =>
    let calls1 := calls0 ++ [ExtCall.stripeDelete physicalResourceId stripeOpts]
    match env.deleteEndpoint value physicalResourceId with
    | Except.error e => (Except.error (HandlerErr.stripeErr e), calls1)
    | Except.ok _ => (Except.ok (), calls1)

/-- A lifecycle request dispatched by the wrapper: create, update or delete,
the latter two carrying the physical id of the incoming event. -/
inductive LifecycleRequest where
  | create (props : WebhookProps)
  | update (physicalResourceId : String) (props : WebhookProps)
  | delete (physicalResourceId : String) (props : WebhookProps)
deriving Repr, DecidableEq

/-- Terminal status reported to the lifecycle framework. -/
inductive LifecycleStatus where
  | success
  | failed
deriving Repr, DecidableEq

/-- The normalized lifecycle response
(`{status, physicalId, reason, responseData}` in the spec). -/
structure LifecycleResponse where
  status : LifecycleStatus
  physicalResourceId : Option String
  reason : Option String
  responseData : Option WebhookEndpoint
deriving Repr, DecidableEq

/-- The physical id carried by the incoming request, when present. -/
def reqPhysicalId : LifecycleRequest → Option String
  | LifecycleRequest.create _ => none
  | LifecycleRequest.update pid _ => some pid
  | LifecycleRequest.delete pid _ => some pid

/-- Dispatch of a lifecycle request to the matching handler
(`onCreate / onUpdate / onDelete` wiring of the source); a successful
delete produces no payload. -/
def runResource (env : StripeEnv) (req : LifecycleRequest) :
    Except HandlerErr (Option ResourceHandlerReturn) × List ExtCall :=
  match req with
  | LifecycleRequest.create props =>
    let r := handleCreate env props
    (r.1.map some, r.2)
  | LifecycleRequest.update pid props =>
    let r := handleUpdate env pid props
    (r.1.map some, r.2)
  | LifecycleRequest.delete pid props =>
    let r := handleDelete env pid props
    (r.1.map (fun _ => none), r.2)

/-- Modelled from the spec: the `customResourceHelper` lifecycle wrapper is
the external `custom-resource-helper` package, not part of this
repository's sources. Per the spec it catches any error a handler throws
and reports a terminal status: "Non-recoverable errors surface as a failed
lifecycle result with a human-readable reason string; the caller is never
left without a terminal status", returning
`{status: Success|Failed, physicalId, reason, responseData}`. -/
def handler (env : StripeEnv) (req : LifecycleRequest) :
    LifecycleResponse × List ExtCall :=
  match runResource env req with
  | (Except.ok (some r), t) =>
    ({ status := LifecycleStatus.success, physicalResourceId := some r.physicalResourceId,
       reason := none, responseData := some r.responseData }, t)
  | (Except.ok none, t) =>
    ({ status := LifecycleStatus.success, physicalResourceId := reqPhysicalId req,
       reason := none, responseData := none }, t)
  | (Except.error e, t) =>
    ({ status := LifecycleStatus.failed, physicalResourceId := reqPhysicalId req,
       reason := some (errMessage e), responseData := none }, t)

end StripeWebhook

namespace StripeEventBusProducer

/-- A JavaScript error value as observed by the catch block of the
producer: its optional `type` property (Stripe errors carry one, plain
`Error` objects do not) and its `message`. -/
structure JsError where
  type : Option String
  message : String
deriving Repr, DecidableEq

/-- The verified Stripe event produced by `stripe.webhooks.constructEvent`:
its `type` and, standing for `JSON.stringify` of the remaining fields
(`const { type, ...details } = eventReceived`), the serialized details. -/
structure StripeEvent where
  type : String
  detailsJson : String
deriving Repr, DecidableEq

/-- The entry handed to EventBridge `PutEvents`. -/
structure PutEventsEntry where
  detail : String
  detailType : String
  eventBusName : String
  source : Option String
deriving Repr, DecidableEq

/-- One external call issued by the producer, recorded with its
configuration; a publish attempt records whether the send succeeded. -/
inductive ProducerCall where
  | resolveSecret (locator : String) (config : StripeWebhook.RetryConfiguration)
  | putEvents (entry : PutEventsEntry) (succeeded : Bool)
deriving Repr, DecidableEq

/-- Number of publish attempts in a trace that actually succeeded. -/
def publishedOkCount (trace : List ProducerCall) : Nat :=
  trace.countP (fun c =>
    match c with
    | ProducerCall.putEvents _ true => true
    | _ => false)

/-- Oracle for the producer's external world: the two secret resolutions
(whose locators come from the `SECRET_KEY_STRING` / `ENDPOINT_SECRET_STRING`
environment variables), signature verification, the event-bus name and
source, and the EventBridge send. -/
structure ProducerEnv where
  secretKeyString : String
  endpointSecretString : String
  apiSecret : Except JsError String
  endpointSecret : Except JsError String
  constructEvent : String → String → String → Except JsError StripeEvent
  eventBusName : String
  source : Option String
  putEvents : PutEventsEntry → Except JsError Unit

/-- An incoming API-Gateway proxy event: its headers and optional body. -/
structure ApiGatewayEvent where
  headers : List (String × String)
  body : Option String
deriving Repr, DecidableEq

/-- The proxy result returned by the producer handler. -/
structure ApiGatewayResult where
  statusCode : Nat
  body : String
deriving Repr, DecidableEq

/-- Header lookup (`event.headers['Stripe-Signature']`). -/
def lookupHeader (headers : List (String × String)) (k : String) : Option String :=
  (headers.find? (fun p => p.fst = k)).map Prod.snd

/-- The catch block of the producer: a `StripeSignatureVerificationError`
maps to HTTP 400 with the error's message, anything else to HTTP 500. -/
def catchResult (e : JsError) : ApiGatewayResult :=
  if e.type = some "StripeSignatureVerificationError" then
    { statusCode := 400, body := "Webhook Error: " ++ e.message }
  else
    { statusCode := 500, body := "Error: " ++ e.message }

/-- The producer handler, in source order: resolve the API secret, read the
`Stripe-Signature` header (a missing or empty header throws a plain
`Error`), resolve the endpoint secret, require a body, verify the
signature via `constructEvent`, publish to EventBridge, and return 200;
every thrown error lands in `catchResult`. The second component is the
trace of external calls issued. -/
def handler (env : ProducerEnv) (event : ApiGatewayEvent) :
    ApiGatewayResult × List ProducerCall :=
  let calls0 := [ProducerCall.resolveSecret env.secretKeyString StripeWebhook.secretCfg]
  match env.apiSecret with
  | Except.error e => (catchResult e, calls0)
  | Except.ok _apiKey =>
    match lookupHeader event.headers "Stripe-Signature" with
    | none => (catchResult { type := none, message := "Stripe signature is missing" }, calls0)
    | some signature =>
      if signature = "" then
        (catchResult { type := none, message := "Stripe signature is missing" }, calls0)
      else
        let calls1 := calls0 ++
          [ProducerCall.resolveSecret env.endpointSecretString StripeWebhook.secretCfg]
        match env.endpointSecret with
        | Except.error e => (catchResult e, calls1)
        | Except.ok endpointSecret =>
          match event.body with
          | none => (catchResult { type := none, message := "event body undefined or null" }, calls1)
          | some body =>
            match env.constructEvent body signature endpointSecret with
            | Except.error e => (catchResult e, calls1)
            | Except.ok eventReceived =>
              let entry : PutEventsEntry :=
                { detail := eventReceived.detailsJson, detailType := eventReceived.type,
                  eventBusName := env.eventBusName, source := env.source }
              match env.putEvents entry with
              | Except.error e =>
                (catchResult e, calls1 ++ [ProducerCall.putEvents entry false])
              | Except.ok _ =>
                ({ statusCode := 200, body := "Success" },
                 calls1 ++ [ProducerCall.putEvents entry true])

end StripeEventBusProducer

namespace WithConfiguration

/-- The camelized resource properties of the configuration-injection
custom resource (`WithConfiguration` in the source). -/
structure WithConfigurationProps where
  region : String
  functionName : String
  configuration : String
deriving Repr, DecidableEq

/-- The fields of the `UpdateFunctionCode` response the handler reads. -/
structure UpdateCodeResult where
  codeSha256 : String
  version : String
  functionArn : String
deriving Repr, DecidableEq

/-- The mutable `responseDetails` object of the source handler. -/
structure ResponseDetails where
  responseStatus : String
  reason : String
  physicalResourceId : String
  responseData : List (String × String)
deriving Repr, DecidableEq

/-- Oracle for the Lambda control plane: the code location reported by
`GetFunction` (`Code?.Location`), the result of `UpdateFunctionCode`, and
the outcome of the `waitUntilFunctionActiveV2` poll (an `Except.error`
covers both a poll timeout and a transport fault). -/
structure EdgeEnv where
  codeLocation : Option String
  updateFunctionCode : String → Except String UpdateCodeResult
  waitUntilActive : String → Except String Unit

/-- The two observable values of one run of `updateLambdaCode`:
`returned` is the value the async handler returns (the value of
`responseDetails` at the moment of the `return` statement), and
`settledLater` is the value the mutable `responseDetails` variable holds
after the continuation attached to the un-awaited
`waitUntilFunctionActiveV2(...)` promise has run — which, by JS event-loop
semantics, can only happen after the handler has already returned. -/
structure AsyncRun where
  returned : ResponseDetails
  settledLater : ResponseDetails
deriving Repr, DecidableEq

/-- The `.then` / `.catch` continuation attached to the
`waitUntilFunctionActiveV2` promise: on success it overwrites
`responseDetails` with a SUCCESS result carrying code SHA, version and
function ARN; on error with a FAILED result naming the error. -/
def pollContinuation (env : EdgeEnv) (functionName : String)
    (r : UpdateCodeResult) : ResponseDetails :=
  match env.waitUntilActive functionName with
  | Except.ok _ =>
    { responseStatus := "SUCCESS",
      physicalResourceId := functionName,
      reason := "Lambda function " ++ functionName ++ " is active.",
      responseData := [("CodeSha256", r.codeSha256), ("Version", r.version),
                       ("FunctionArn", r.functionArn)] }
  | Except.error err =>
    { responseStatus := "FAILED",
      physicalResourceId := functionName,
      reason := "Encountered error while waiting for " ++ functionName ++
        " to go active: " ++ err,
      responseData := [] }

/-- `updateLambdaCode`: fetch the function's code location (throwing when
absent), download/re-zip the package with the injected configuration
(local deterministic steps), upload it via `UpdateFunctionCode`, then
initialize `responseDetails` to a FAILED / "Internal Error" placeholder
and attach the poll continuation to the `waitUntilFunctionActiveV2`
promise WITHOUT awaiting it. No await point separates attaching the
continuation from the `return responseDetails` statement, so the handler
deterministically returns the placeholder; the continuation's assignment
(recorded in `settledLater`) happens only after the return. -/
def updateLambdaCode (env : EdgeEnv) (props : WithConfigurationProps) :
    Except String AsyncRun :=
  match env.codeLocation with
  | none =>
    Except.error ("The code of the lambda function " ++ props.functionName ++
      " could not be downloaded.")
  | some _ =>
    match env.updateFunctionCode props.functionName with
    | Except.error e => Except.error e
    | Except.ok r =>
      let responseDetails : ResponseDetails :=
        { responseStatus := "FAILED", reason := "Internal Error",
          physicalResourceId := props.functionName, responseData := [] }
      Except.ok { returned := responseDetails,
                  settledLater := pollContinuation env props.functionName r }

end WithConfiguration

namespace SdkRetry

/-- Outcome of one attempt of an external call: success, a transient
transport error, or a validation error. -/
inductive CallOutcome (α : Type) where
  | ok (v : α)
  | transientErr (msg : String)
  | validationErr (msg : String)
deriving Repr, DecidableEq

/-- Modelled from the spec: the bounded automatic retry the SDKs perform
(the `stripe` SDK's `maxNetworkRetries` and the lambda-utils `maxAttempts`
mechanisms are external packages, not part of this repository's sources).
Per the spec, retry is "automatic bounded retry for transient transport
errors only (not applied to validation errors)" with a "fixed attempt
budget". `retryCall attempt i fuel` runs attempts starting at index `i`
with at most `fuel` attempts remaining, returning the final outcome and
the total number of attempts consumed so far (index past the last
attempt): a transient error is retried while budget remains, any other
outcome stops immediately. -/
def retryCall {α : Type} (attempt : Nat → CallOutcome α) :
    Nat → Nat → CallOutcome α × Nat
  | i, 0 => (CallOutcome.transientErr "no attempts permitted", i)
  | i, fuel + 1 =>
    match attempt i with
    | CallOutcome.transientErr m =>
      if fuel = 0 then (CallOutcome.transientErr m, i + 1)
      else retryCall attempt (i + 1) fuel
    | r => (r, i + 1)

end SdkRetry

namespace Fixtures

/-- A Lambda control-plane oracle on which every step succeeds and the
status poll reaches the active state. -/
def edgeEnvGood : WithConfiguration.EdgeEnv :=
  { codeLocation := some "https://s3.amazonaws.example/code-location",
    updateFunctionCode := fun _ =>
      Except.ok { codeSha256 := "sha256-value", version := "7", functionArn := "arn-of-my-fn" },
    waitUntilActive := fun _ => Except.ok () }

/-- Concrete configuration-injection resource properties. -/
def edgePropsGood : WithConfiguration.WithConfigurationProps :=
  { region := "us-east-1", functionName := "my-fn", configuration := "logLevel: warn" }

/-- Base webhook resource properties: no endpoint-secret store. -/
def propsNoStore : StripeWebhook.WebhookProps :=
  { secretKeyString := "stripe-secret-key-param", endpointSecretStoreString := none,
    url := "https://x/hook", description := none, events := ["a"] }

/-- Webhook resource properties carrying an endpoint-secret store locator. -/
def propsWithStore : StripeWebhook.WebhookProps :=
  { secretKeyString := "stripe-secret-key-param",
    endpointSecretStoreString := some "endpoint-secret-param",
    url := "https://x/hook", description := none, events := ["a"] }

/-- The webhook endpoint the Stripe oracle below answers with on create:
it carries a signing secret. -/
def createdEndpoint : StripeWebhook.WebhookEndpoint :=
  { id := "we_123", url := "https://x/hook", description := none,
    enabled_events := ["a"], secret := some "whsec_abc" }

/-- A Stripe oracle on which every call succeeds; create answers with
`createdEndpoint`, update echoes the addressed id. -/
def stripeEnvOk : StripeWebhook.StripeEnv :=
  { getSecretValue := fun _ => Except.ok "sk_test_value",
    createEndpoint := fun _ _ => Except.ok createdEndpoint,
    updateEndpoint := fun _ id p => Except.ok
      { id := id, url := p.url, description := p.description,
        enabled_events := p.enabled_events, secret := none },
    deleteEndpoint := fun _ _ => Except.ok (),
    putSecret := fun _ _ => Except.ok () }

/-- A Stripe oracle whose delete call reports the addressed endpoint as
already absent (`resource_missing`); everything else succeeds. -/
def stripeEnvDeleteAbsent : StripeWebhook.StripeEnv :=
  { stripeEnvOk with
    deleteEndpoint := fun _ id => Except.error (StripeWebhook.StripeErr.resourceMissing id) }

/-- A Stripe oracle whose update call reports the addressed endpoint as
missing (`resource_missing`). -/
def stripeEnvUpdateMissing : StripeWebhook.StripeEnv :=
  { stripeEnvOk with
    updateEndpoint := fun _ id _ => Except.error (StripeWebhook.StripeErr.resourceMissing id) }

/-- A Stripe oracle whose create call fails with a transport fault. -/
def stripeEnvCreateTimeout : StripeWebhook.StripeEnv :=
  { stripeEnvOk with
    createEndpoint := fun _ _ =>
      Except.error (StripeWebhook.StripeErr.apiConnection "Request timed out") }

/-- A Stripe oracle whose update call fails with a transport fault. -/
def stripeEnvUpdateTimeout : StripeWebhook.StripeEnv :=
  { stripeEnvOk with
    updateEndpoint := fun _ _ _ =>
      Except.error (StripeWebhook.StripeErr.apiConnection "Request timed out") }

/-- A Stripe oracle whose delete call fails with a transport fault. -/
def stripeEnvDeleteTimeout : StripeWebhook.StripeEnv :=
  { stripeEnvOk with
    deleteEndpoint := fun _ _ =>
      Except.error (StripeWebhook.StripeErr.apiConnection "Request timed out") }

/-- A producer oracle on which everything succeeds. -/
def producerEnvOk : StripeEventBusProducer.ProducerEnv :=
  { secretKeyString := "stripe-secret-key-param",
    endpointSecretString := "endpoint-secret-param",
    apiSecret := Except.ok "sk_test_value",
    endpointSecret := Except.ok "whsec_abc",
    constructEvent := fun _ _ _ =>
      Except.ok { type := "charge.succeeded", detailsJson := "details-of-charge" },
    eventBusName := "default",
    source := some "stripe-source",
    putEvents := fun _ => Except.ok () }

/-- A producer oracle whose signature verification raises a
`StripeSignatureVerificationError`. -/
def producerEnvSigErr : StripeEventBusProducer.ProducerEnv :=
  { producerEnvOk with
    constructEvent := fun _ _ _ =>
      Except.error { type := some "StripeSignatureVerificationError",
                     message := "No signatures found matching the expected signature" } }

/-- A producer oracle whose signature verification raises a plain error
with no Stripe error type. -/
def producerEnvOtherErr : StripeEventBusProducer.ProducerEnv :=
  { producerEnvOk with
    constructEvent := fun _ _ _ =>
      Except.error { type := none, message := "Unexpected token in JSON" } }

/-- A request with a valid signature header and body. -/
def producerEventOk : StripeEventBusProducer.ApiGatewayEvent :=
  { headers := [("Stripe-Signature", "t=1,v1=sig")], body := some "payload-json" }

/-- A request lacking the `Stripe-Signature` header. -/
def producerEventNoSig : StripeEventBusProducer.ApiGatewayEvent :=
  { headers := [("Content-Type", "application/json")], body := some "payload-json" }

/-- A request with a signature header but a null body. -/
def producerEventNoBody : StripeEventBusProducer.ApiGatewayEvent :=
  { headers := [("Stripe-Signature", "t=1,v1=sig")], body := none }

end Fixtures

/-- C1. The claim says the polling adapter variant returns only after the
status-polling loop has resolved and that the returned result reflects the
poll's terminal outcome. The code contradicts this (and its own comment
"wait for functions to go active before proceeding"): the
`waitUntilFunctionActiveV2` promise is never awaited, so on an environment
where every step succeeds and the poll reaches the active state, the
handler still returns the initial FAILED / "Internal Error" placeholder,
while the SUCCESS result (with code SHA, version and function ARN) is
assigned to the mutable variable only after the handler has returned. -/
theorem withConfiguration_returns_before_poll_resolves :
    WithConfiguration.updateLambdaCode Fixtures.edgeEnvGood Fixtures.edgePropsGood =
      Except.ok
        { returned :=
            { responseStatus := "FAILED", reason := "Internal Error",
              physicalResourceId := "my-fn", responseData := [] },
          settledLater :=
            { responseStatus := "SUCCESS",
              physicalResourceId := "my-fn",
              reason := "Lambda function my-fn is active.",
              responseData := [("CodeSha256", "sha256-value"), ("Version", "7"),
                               ("FunctionArn", "arn-of-my-fn")] } } := rfl

/-- C2 counterexample. When the external API reports the addressed endpoint
as already absent (`resource_missing`), the delete operation does NOT
return success: `handleDelete` has no handling for an absent resource, the
error propagates, and the lifecycle outcome is failed — refuting the claim
that delete treats "resource already absent" as success. -/
theorem delete_absent_reports_failure_cex :
    Fixtures.stripeEnvDeleteAbsent.deleteEndpoint "sk_test_value" "we_123" =
        Except.error (StripeWebhook.StripeErr.resourceMissing "we_123") ∧
    (StripeWebhook.handler Fixtures.stripeEnvDeleteAbsent
        (StripeWebhook.LifecycleRequest.delete "we_123" Fixtures.propsNoStore)).1.status =
      StripeWebhook.LifecycleStatus.failed := ⟨rfl, rfl⟩

/-- C2 amended. If secret resolution succeeds and the external delete call
reports any error — in particular the resource-missing error for an
already-absent endpoint — `handleDelete` propagates it and the lifecycle
outcome is failed with the error's message as reason; delete is not
idempotent on an absent physical id. -/
theorem delete_absent_propagates_error (env : StripeWebhook.StripeEnv)
    (pid : String) (props : StripeWebhook.WebhookProps) (key : String)
    (e : StripeWebhook.StripeErr)
    (h1 : env.getSecretValue props.secretKeyString = Except.ok key)
    (h2 : env.deleteEndpoint key pid = Except.error e) :
    (StripeWebhook.handler env (StripeWebhook.LifecycleRequest.delete pid props)).1 =
      { status := StripeWebhook.LifecycleStatus.failed,
        physicalResourceId := some pid,
        reason := some (StripeWebhook.stripeErrMessage e),
        responseData := none } := by
  simp [StripeWebhook.handler, StripeWebhook.runResource, StripeWebhook.handleDelete,
    h1, h2, StripeWebhook.reqPhysicalId, StripeWebhook.errMessage, Except.map]

/-- C2 amended, witness: two successive deletes of `we_123` against an
environment reporting it absent both fail with the resource-missing
message. -/
theorem delete_absent_propagates_error_witness :
    (StripeWebhook.handler Fixtures.stripeEnvDeleteAbsent
        (StripeWebhook.LifecycleRequest.delete "we_123" Fixtures.propsNoStore)).1 =
      { status := StripeWebhook.LifecycleStatus.failed,
        physicalResourceId := some "we_123",
        reason := some "No such webhook endpoint: we_123",
        responseData := none } :=
  delete_absent_propagates_error Fixtures.stripeEnvDeleteAbsent "we_123"
    Fixtures.propsNoStore "sk_test_value"
    (StripeWebhook.StripeErr.resourceMissing "we_123") rfl rfl

/-- C3. On a create where an endpoint-secret store locator is supplied, the
external response carries a signing secret, and the store accepts it: the
returned response data is exactly the external response with the secret
field removed (all other fields unchanged), the returned payload carries
no secret, and the trace records the secret being written to the separate
store. -/
theorem create_redacts_stored_secret (env : StripeWebhook.StripeEnv)
    (props : StripeWebhook.WebhookProps) (key store secret : String)
    (data : StripeWebhook.WebhookEndpoint)
    (h1 : env.getSecretValue props.secretKeyString = Except.ok key)
    (hstore : props.endpointSecretStoreString = some store)
    (h2 : env.createEndpoint key
        { url := props.url, description := props.description,
          enabled_events := props.events } = Except.ok data)
    (hsec : data.secret = some secret)
    (h3 : env.putSecret store secret = Except.ok ()) :
    (StripeWebhook.handleCreate env props).1 =
      Except.ok { physicalResourceId := data.id,
                  responseData := { data with secret := none } } ∧
    StripeWebhook.ExtCall.storeSecret store StripeWebhook.secretCfg ∈
      (StripeWebhook.handleCreate env props).2 := by
  constructor
  · simp [StripeWebhook.handleCreate, h1, h2, hstore, hsec, h3]
  · simp [StripeWebhook.handleCreate, h1, h2, hstore, hsec, h3]

/-- C3 witness: create with a store locator against an API answering with a
secret-carrying endpoint returns the endpoint with the secret absent. -/
theorem create_redacts_stored_secret_witness :
    (StripeWebhook.handleCreate Fixtures.stripeEnvOk Fixtures.propsWithStore).1 =
      Except.ok
        { physicalResourceId := "we_123",
          responseData :=
            { id := "we_123", url := "https://x/hook", description := none,
              enabled_events := ["a"], secret := none } } :=
  (create_redacts_stored_secret Fixtures.stripeEnvOk Fixtures.propsWithStore
    "sk_test_value" "endpoint-secret-param" "whsec_abc" Fixtures.createdEndpoint
    rfl rfl rfl rfl rfl).1

/-- C9. Redaction and side-channel storage happen only when both the store
locator and a returned secret are present: with no store locator the
response data is the external response unchanged (a returned signing
secret stays in the payload) and nothing is written to a secret store; the
same holds with a store locator but no returned secret. -/
theorem create_without_store_keeps_secret (env : StripeWebhook.StripeEnv)
    (props : StripeWebhook.WebhookProps) (key : String)
    (data : StripeWebhook.WebhookEndpoint)
    (h1 : env.getSecretValue props.secretKeyString = Except.ok key)
    (h2 : env.createEndpoint key
        { url := props.url, description := props.description,
          enabled_events := props.events } = Except.ok data) :
    (props.endpointSecretStoreString = none →
      (StripeWebhook.handleCreate env props).1 =
        Except.ok { physicalResourceId := data.id, responseData := data } ∧
      ∀ l c, StripeWebhook.ExtCall.storeSecret l c ∉
        (StripeWebhook.handleCreate env props).2) ∧
    (∀ store, props.endpointSecretStoreString = some store → data.secret = none →
      (StripeWebhook.handleCreate env props).1 =
        Except.ok { physicalResourceId := data.id, responseData := data } ∧
      ∀ l c, StripeWebhook.ExtCall.storeSecret l c ∉
        (StripeWebhook.handleCreate env props).2) := by
  constructor
  · intro hstore
    constructor
    · simp [StripeWebhook.handleCreate, h1, h2, hstore]
    · intro l c
      simp [StripeWebhook.handleCreate, h1, h2, hstore]
  · intro store hstore hsec
    constructor
    · simp [StripeWebhook.handleCreate, h1, h2, hstore, hsec]
    · intro l c
      simp [StripeWebhook.handleCreate, h1, h2, hstore, hsec]

/-- C5. The adapter never invents identifiers: a successful create returns
as physical resource id exactly the id of the endpoint object the external
service answered with, and every Stripe update / delete call recorded in
the trace is scoped to exactly the physical id carried by the incoming
event. -/
theorem physical_id_from_external_service :
    (∀ (env : StripeWebhook.StripeEnv) (props : StripeWebhook.WebhookProps)
        (key : String) (data : StripeWebhook.WebhookEndpoint)
        (r : StripeWebhook.ResourceHandlerReturn),
      env.getSecretValue props.secretKeyString = Except.ok key →
      env.createEndpoint key
          { url := props.url, description := props.description,
            enabled_events := props.events } = Except.ok data →
      (StripeWebhook.handleCreate env props).1 = Except.ok r →
      r.physicalResourceId = data.id) ∧
    (∀ (env : StripeWebhook.StripeEnv) (pid : String)
        (props : StripeWebhook.WebhookProps) (c : StripeWebhook.ExtCall),
      c ∈ (StripeWebhook.handleUpdate env pid props).2 →
      ∀ id params opts, c = StripeWebhook.ExtCall.stripeUpdate id params opts → id = pid) ∧
    (∀ (env : StripeWebhook.StripeEnv) (pid : String)
        (props : StripeWebhook.WebhookProps) (c : StripeWebhook.ExtCall),
      c ∈ (StripeWebhook.handleDelete env pid props).2 →
      ∀ id opts, c = StripeWebhook.ExtCall.stripeDelete id opts → id = pid) := by
  refine ⟨?_, ?_, ?_⟩
  · intro env props key data r h1 h2 hr
    simp only [StripeWebhook.handleCreate, h1, h2] at hr
    split at hr
    · split at hr
      · simp at hr
      · simp at hr
        rw [← hr]
    · simp at hr
      rw [← hr]
  · intro env pid props c hc id params opts hcall
    subst hcall
    simp only [StripeWebhook.handleUpdate] at hc
    rcases h1 : env.getSecretValue props.secretKeyString with e | v <;>
      simp only [h1] at hc
    · simp at hc
    · split at hc <;> (simp at hc; exact hc.1)
  · intro env pid props c hc id opts hcall
    subst hcall
    simp only [StripeWebhook.handleDelete] at hc
    rcases h1 : env.getSecretValue props.secretKeyString with e | v <;>
      simp only [h1] at hc
    · simp at hc
    · split at hc <;> (simp at hc; exact hc.1)

/-- C5 witness: the theorem applied to a concrete create whose external
answer carries id `we_123`, and to the concrete update / delete calls
recorded in the traces against physical id `we_123`. -/
theorem physical_id_from_external_service_witness :
    ({ physicalResourceId := "we_123",
       responseData :=
         { id := "we_123", url := "https://x/hook", description := none,
           enabled_events := ["a"], secret := none } } :
      StripeWebhook.ResourceHandlerReturn).physicalResourceId = "we_123" ∧
    ("we_123" : String) = "we_123" ∧ ("we_123" : String) = "we_123" := by
  refine ⟨?_, ?_, ?_⟩
  · exact physical_id_from_external_service.1 Fixtures.stripeEnvOk Fixtures.propsWithStore
      "sk_test_value" Fixtures.createdEndpoint _ rfl rfl rfl
  · exact physical_id_from_external_service.2.1 Fixtures.stripeEnvOk "we_123"
      Fixtures.propsNoStore
      (StripeWebhook.ExtCall.stripeUpdate "we_123"
        { url := "https://x/hook", description := none, enabled_events := ["a"] }
        StripeWebhook.stripeOpts)
      (by decide) "we_123"
      { url := "https://x/hook", description := none, enabled_events := ["a"] }
      StripeWebhook.stripeOpts rfl
  · exact physical_id_from_external_service.2.2 Fixtures.stripeEnvOk "we_123"
      Fixtures.propsNoStore
      (StripeWebhook.ExtCall.stripeDelete "we_123" StripeWebhook.stripeOpts)
      (by decide) "we_123" StripeWebhook.stripeOpts rfl

/-- C6. When secret resolution succeeds and the external update call
reports the addressed id as no longer existing (the invalid-request error
with code `resource_missing`, the spec's `UnknownResource`), `handleUpdate`
fails with exactly that typed error and the lifecycle outcome is failed
with its message as reason. -/
theorem update_missing_id_fails_unknown_resource (env : StripeWebhook.StripeEnv)
    (pid : String) (props : StripeWebhook.WebhookProps) (key : String)
    (h1 : env.getSecretValue props.secretKeyString = Except.ok key)
    (h2 : env.updateEndpoint key pid
        { url := props.url, description := props.description,
          enabled_events := props.events } =
      Except.error (StripeWebhook.StripeErr.resourceMissing pid)) :
    (StripeWebhook.handleUpdate env pid props).1 =
      Except.error (StripeWebhook.HandlerErr.stripeErr
        (StripeWebhook.StripeErr.resourceMissing pid)) ∧
    (StripeWebhook.handler env (StripeWebhook.LifecycleRequest.update pid props)).1 =
      { status := StripeWebhook.LifecycleStatus.failed,
        physicalResourceId := some pid,
        reason := some ("No such webhook endpoint: " ++ pid),
        responseData := none } := by
  constructor
  · simp [StripeWebhook.handleUpdate, h1, h2]
  · simp [StripeWebhook.handler, StripeWebhook.runResource, StripeWebhook.handleUpdate,
      h1, h2, StripeWebhook.reqPhysicalId, StripeWebhook.errMessage,
      StripeWebhook.stripeErrMessage, Except.map]

/-- C6 witness: updating `we_123` against an environment reporting it
missing fails with the resource-missing error and a failed lifecycle
response naming it. -/
theorem update_missing_id_fails_unknown_resource_witness :
    (StripeWebhook.handleUpdate Fixtures.stripeEnvUpdateMissing "we_123"
        Fixtures.propsNoStore).1 =
      Except.error (StripeWebhook.HandlerErr.stripeErr
        (StripeWebhook.StripeErr.resourceMissing "we_123")) ∧
    (StripeWebhook.handler Fixtures.stripeEnvUpdateMissing
        (StripeWebhook.LifecycleRequest.update "we_123" Fixtures.propsNoStore)).1 =
      { status := StripeWebhook.LifecycleStatus.failed,
        physicalResourceId := some "we_123",
        reason := some "No such webhook endpoint: we_123",
        responseData := none } :=
  update_missing_id_fails_unknown_resource Fixtures.stripeEnvUpdateMissing "we_123"
    Fixtures.propsNoStore "sk_test_value" rfl rfl

/-- C4. The lifecycle wrapper always reports a terminal status: every
response is success (with no reason) or failed with the human-readable
message of the handler's error as reason; in particular a transport fault
(here a timeout) of the create, update or delete call yields a failed
response carrying the fault's message. -/
theorem lifecycle_faults_become_failed_status :
    (∀ (env : StripeWebhook.StripeEnv) (req : StripeWebhook.LifecycleRequest),
      ((StripeWebhook.handler env req).1.status = StripeWebhook.LifecycleStatus.success ∧
        (StripeWebhook.handler env req).1.reason = none) ∨
      ((StripeWebhook.handler env req).1.status = StripeWebhook.LifecycleStatus.failed ∧
        ∃ e : StripeWebhook.HandlerErr,
          (StripeWebhook.handler env req).1.reason =
            some (StripeWebhook.errMessage e))) ∧
    (∀ (env : StripeWebhook.StripeEnv) (props : StripeWebhook.WebhookProps)
        (key m : String),
      env.getSecretValue props.secretKeyString = Except.ok key →
      env.createEndpoint key
          { url := props.url, description := props.description,
            enabled_events := props.events } =
        Except.error (StripeWebhook.StripeErr.apiConnection m) →
      (StripeWebhook.handler env (StripeWebhook.LifecycleRequest.create props)).1 =
        { status := StripeWebhook.LifecycleStatus.failed, physicalResourceId := none,
          reason := some m, responseData := none }) ∧
    (∀ (env : StripeWebhook.StripeEnv) (pid : String)
        (props : StripeWebhook.WebhookProps) (key m : String),
      env.getSecretValue props.secretKeyString = Except.ok key →
      env.updateEndpoint key pid
          { url := props.url, description := props.description,
            enabled_events := props.events } =
        Except.error (StripeWebhook.StripeErr.apiConnection m) →
      (StripeWebhook.handler env (StripeWebhook.LifecycleRequest.update pid props)).1 =
        { status := StripeWebhook.LifecycleStatus.failed, physicalResourceId := some pid,
          reason := some m, responseData := none }) ∧
    (∀ (env : StripeWebhook.StripeEnv) (pid : String)
        (props : StripeWebhook.WebhookProps) (key m : String),
      env.getSecretValue props.secretKeyString = Except.ok key →
      env.deleteEndpoint key pid =
        Except.error (StripeWebhook.StripeErr.apiConnection m) →
      (StripeWebhook.handler env (StripeWebhook.LifecycleRequest.delete pid props)).1 =
        { status := StripeWebhook.LifecycleStatus.failed, physicalResourceId := some pid,
          reason := some m, responseData := none }) := by
  refine ⟨?_, ?_, ?_, ?_⟩
  · intro env req
    rcases h : StripeWebhook.runResource env req with ⟨e | _ | r, t⟩
    · right
      refine ⟨by simp [StripeWebhook.handler, h], e, by simp [StripeWebhook.handler, h]⟩
    · left
      exact ⟨by simp [StripeWebhook.handler, h], by simp [StripeWebhook.handler, h]⟩
    · left
      exact ⟨by simp [StripeWebhook.handler, h], by simp [StripeWebhook.handler, h]⟩
  · intro env props key m h1 h2
    simp [StripeWebhook.handler, StripeWebhook.runResource, StripeWebhook.handleCreate,
      h1, h2, StripeWebhook.reqPhysicalId, StripeWebhook.errMessage,
      StripeWebhook.stripeErrMessage, Except.map]
  · intro env pid props key m h1 h2
    simp [StripeWebhook.handler, StripeWebhook.runResource, StripeWebhook.handleUpdate,
      h1, h2, StripeWebhook.reqPhysicalId, StripeWebhook.errMessage,
      StripeWebhook.stripeErrMessage, Except.map]
  · intro env pid props key m h1 h2
    simp [StripeWebhook.handler, StripeWebhook.runResource, StripeWebhook.handleDelete,
      h1, h2, StripeWebhook.reqPhysicalId, StripeWebhook.errMessage,
      StripeWebhook.stripeErrMessage, Except.map]

/-- C4 witness: a timed-out create, update and delete each produce a failed
lifecycle response whose reason is the timeout message. -/
theorem lifecycle_faults_become_failed_status_witness :
    (StripeWebhook.handler Fixtures.stripeEnvCreateTimeout
        (StripeWebhook.LifecycleRequest.create Fixtures.propsNoStore)).1 =
      { status := StripeWebhook.LifecycleStatus.failed, physicalResourceId := none,
        reason := some "Request timed out", responseData := none } ∧
    (StripeWebhook.handler Fixtures.stripeEnvUpdateTimeout
        (StripeWebhook.LifecycleRequest.update "we_123" Fixtures.propsNoStore)).1 =
      { status := StripeWebhook.LifecycleStatus.failed, physicalResourceId := some "we_123",
        reason := some "Request timed out", responseData := none } ∧
    (StripeWebhook.handler Fixtures.stripeEnvDeleteTimeout
        (StripeWebhook.LifecycleRequest.delete "we_123" Fixtures.propsNoStore)).1 =
      { status := StripeWebhook.LifecycleStatus.failed, physicalResourceId := some "we_123",
        reason := some "Request timed out", responseData := none } :=
  ⟨lifecycle_faults_become_failed_status.2.1 Fixtures.stripeEnvCreateTimeout
      Fixtures.propsNoStore "sk_test_value" "Request timed out" rfl rfl,
   lifecycle_faults_become_failed_status.2.2.1 Fixtures.stripeEnvUpdateTimeout "we_123"
      Fixtures.propsNoStore "sk_test_value" "Request timed out" rfl rfl,
   lifecycle_faults_become_failed_status.2.2.2 Fixtures.stripeEnvDeleteTimeout "we_123"
      Fixtures.propsNoStore "sk_test_value" "Request timed out" rfl rfl⟩

/-- C9 witness: create without a store locator returns the endpoint with
its signing secret still present in the payload. -/
theorem create_without_store_keeps_secret_witness :
    (StripeWebhook.handleCreate Fixtures.stripeEnvOk Fixtures.propsNoStore).1 =
      Except.ok
        { physicalResourceId := "we_123",
          responseData :=
            { id := "we_123", url := "https://x/hook", description := none,
              enabled_events := ["a"], secret := some "whsec_abc" } } :=
  ((create_without_store_keeps_secret Fixtures.stripeEnvOk Fixtures.propsNoStore
    "sk_test_value" Fixtures.createdEndpoint rfl rfl).1 rfl).1

/-- Every external call a create invocation records is configured with
retry budget 5. -/
theorem handleCreate_trace_budget (env : StripeWebhook.StripeEnv)
    (props : StripeWebhook.WebhookProps) :
    ∀ c ∈ (StripeWebhook.handleCreate env props).2, StripeWebhook.callBudget c = 5 := by
  intro c hc
  simp only [StripeWebhook.handleCreate] at hc
  split at hc
  all_goals try split at hc
  all_goals try split at hc
  all_goals try split at hc
  all_goals
    simp at hc
  all_goals
    first
      | (subst hc; rfl; done)
      | (rcases hc with rfl | rfl <;> rfl; done)
      | (rcases hc with rfl | rfl | rfl <;> rfl; done)

/-- Every external call an update invocation records is configured with
retry budget 5. -/
theorem handleUpdate_trace_budget (env : StripeWebhook.StripeEnv)
    (pid : String) (props : StripeWebhook.WebhookProps) :
    ∀ c ∈ (StripeWebhook.handleUpdate env pid props).2,
      StripeWebhook.callBudget c = 5 := by
  intro c hc
  simp only [StripeWebhook.handleUpdate] at hc
  split at hc
  all_goals try split at hc
  all_goals
    simp at hc
  all_goals
    first
      | (subst hc; rfl; done)
      | (rcases hc with rfl | rfl <;> rfl; done)

/-- Every external call a delete invocation records is configured with
retry budget 5. -/
theorem handleDelete_trace_budget (env : StripeWebhook.StripeEnv)
    (pid : String) (props : StripeWebhook.WebhookProps) :
    ∀ c ∈ (StripeWebhook.handleDelete env pid props).2,
      StripeWebhook.callBudget c = 5 := by
  intro c hc
  simp only [StripeWebhook.handleDelete] at hc
  split at hc
  all_goals try split at hc
  all_goals
    simp at hc
  all_goals
    first
      | (subst hc; rfl; done)
      | (rcases hc with rfl | rfl <;> rfl; done)

/-- The lifecycle wrapper forwards the dispatched handler's trace. -/
theorem handler_trace_eq (env : StripeWebhook.StripeEnv)
    (req : StripeWebhook.LifecycleRequest) :
    (StripeWebhook.handler env req).2 = (StripeWebhook.runResource env req).2 := by
  rcases h : StripeWebhook.runResource env req with ⟨e | _ | r, t⟩ <;>
    simp [StripeWebhook.handler, h]

/-- Every secret resolution the producer records is configured with
`maxAttempts` 5. -/
theorem producer_trace_resolve_budget (env : StripeEventBusProducer.ProducerEnv)
    (event : StripeEventBusProducer.ApiGatewayEvent) :
    ∀ l cfg, StripeEventBusProducer.ProducerCall.resolveSecret l cfg ∈
      (StripeEventBusProducer.handler env event).2 → cfg.maxAttempts = 5 := by
  intro l cfg hc
  simp only [StripeEventBusProducer.handler] at hc
  split at hc
  all_goals try split at hc
  all_goals try split at hc
  all_goals try split at hc
  all_goals try split at hc
  all_goals try split at hc
  all_goals try split at hc
  all_goals
    simp at hc
  all_goals
    first
      | (obtain ⟨-, rfl⟩ := hc; rfl; done)
      | (rcases hc with ⟨-, rfl⟩ | ⟨-, rfl⟩ <;> rfl; done)

/-- C7. Retry configuration: every external call recorded by any lifecycle
invocation is configured with retry budget 5 (`maxAttempts` for secret
operations, `maxNetworkRetries` for Stripe calls), every secret resolution
the event-bus producer records is configured with `maxAttempts` 5, and the
(spec-modelled) SDK retry mechanism stops at the first validation error
without retrying it while never exceeding its attempt budget. -/
theorem retry_budget_five_and_transient_only :
    (∀ (env : StripeWebhook.StripeEnv) (req : StripeWebhook.LifecycleRequest),
      ∀ c ∈ (StripeWebhook.handler env req).2, StripeWebhook.callBudget c = 5) ∧
    (∀ (env : StripeEventBusProducer.ProducerEnv)
        (event : StripeEventBusProducer.ApiGatewayEvent)
        (l : String) (cfg : StripeWebhook.RetryConfiguration),
      StripeEventBusProducer.ProducerCall.resolveSecret l cfg ∈
        (StripeEventBusProducer.handler env event).2 → cfg.maxAttempts = 5) ∧
    (∀ (α : Type) (attempt : Nat → SdkRetry.CallOutcome α) (m : String),
      attempt 0 = SdkRetry.CallOutcome.validationErr m →
      SdkRetry.retryCall attempt 0 5 = (SdkRetry.CallOutcome.validationErr m, 1)) ∧
    (∀ (α : Type) (attempt : Nat → SdkRetry.CallOutcome α) (i fuel : Nat),
      (SdkRetry.retryCall attempt i fuel).2 ≤ i + fuel) := by
  refine ⟨?_, ?_, ?_, ?_⟩
  · intro env req c hc
    rw [handler_trace_eq] at hc
    rcases req with props | ⟨pid, props⟩ | ⟨pid, props⟩
    · exact handleCreate_trace_budget env props c hc
    · exact handleUpdate_trace_budget env pid props c hc
    · exact handleDelete_trace_budget env pid props c hc
  · intro env event l cfg hc
    exact producer_trace_resolve_budget env event l cfg hc
  · intro α attempt m h
    show SdkRetry.retryCall attempt 0 (4 + 1) =
      (SdkRetry.CallOutcome.validationErr m, 0 + 1)
    simp only [SdkRetry.retryCall, h]
  · intro α attempt i fuel
    induction fuel generalizing i with
    | zero =>
      simp [SdkRetry.retryCall]
    | succ n ih =>
      show (SdkRetry.retryCall attempt i (n + 1)).2 ≤ i + (n + 1)
      simp only [SdkRetry.retryCall]
      rcases h : attempt i with v | m | m <;> simp only [h]
      · simp
      · split
        · simp
        · have h2 := ih (i + 1)
          omega
      · simp

/-- C7 witness: the theorem applied to a concrete delete trace, a concrete
producer trace, an attempt sequence that fails validation at once, and an
always-transient attempt sequence with budget 5. -/
theorem retry_budget_five_and_transient_only_witness :
    StripeWebhook.callBudget
      (StripeWebhook.ExtCall.stripeDelete "we_123" StripeWebhook.stripeOpts) = 5 ∧
    StripeWebhook.secretCfg.maxAttempts = 5 ∧
    SdkRetry.retryCall
        (fun _ => SdkRetry.CallOutcome.validationErr (α := Unit) "invalid url") 0 5 =
      (SdkRetry.CallOutcome.validationErr "invalid url", 1) ∧
    (SdkRetry.retryCall
        (fun _ => SdkRetry.CallOutcome.transientErr (α := Unit) "timeout") 0 5).2 ≤
      0 + 5 :=
  ⟨retry_budget_five_and_transient_only.1 Fixtures.stripeEnvOk
      (StripeWebhook.LifecycleRequest.delete "we_123" Fixtures.propsNoStore)
      (StripeWebhook.ExtCall.stripeDelete "we_123" StripeWebhook.stripeOpts) (by decide),
   retry_budget_five_and_transient_only.2.1 Fixtures.producerEnvOk Fixtures.producerEventOk
      "stripe-secret-key-param" StripeWebhook.secretCfg (by decide),
   retry_budget_five_and_transient_only.2.2.1 Unit
      (fun _ => SdkRetry.CallOutcome.validationErr "invalid url") "invalid url" rfl,
   retry_budget_five_and_transient_only.2.2.2 Unit
      (fun _ => SdkRetry.CallOutcome.transientErr "timeout") 0 5⟩

/-- C8. With the API secret resolved, a nonempty signature header, the
endpoint secret resolved and a body present: a signature-verification
error from `constructEvent` yields HTTP 400 with the error's message in
the body, any other `constructEvent` error yields HTTP 500, and a verified
event whose publication succeeds yields HTTP 200 after exactly one
successful publish. -/
theorem producer_signature_error_maps_to_400
    (env : StripeEventBusProducer.ProducerEnv)
    (event : StripeEventBusProducer.ApiGatewayEvent)
    (key es sig body : String)
    (hk : env.apiSecret = Except.ok key)
    (hs : StripeEventBusProducer.lookupHeader event.headers "Stripe-Signature" = some sig)
    (hsig : sig ≠ "")
    (he : env.endpointSecret = Except.ok es)
    (hb : event.body = some body) :
    (∀ e, env.constructEvent body sig es = Except.error e →
      e.type = some "StripeSignatureVerificationError" →
      (StripeEventBusProducer.handler env event).1 =
        { statusCode := 400, body := "Webhook Error: " ++ e.message }) ∧
    (∀ e, env.constructEvent body sig es = Except.error e →
      e.type ≠ some "StripeSignatureVerificationError" →
      (StripeEventBusProducer.handler env event).1 =
        { statusCode := 500, body := "Error: " ++ e.message }) ∧
    (∀ ev, env.constructEvent body sig es = Except.ok ev →
      env.putEvents { detail := ev.detailsJson, detailType := ev.type,
                      eventBusName := env.eventBusName, source := env.source } =
        Except.ok () →
      (StripeEventBusProducer.handler env event).1 =
        { statusCode := 200, body := "Success" } ∧
      StripeEventBusProducer.publishedOkCount
        (StripeEventBusProducer.handler env event).2 = 1) := by
  refine ⟨?_, ?_, ?_⟩
  · intro e hce htype
    simp [StripeEventBusProducer.handler, hk, hs, hsig, he, hb, hce,
      StripeEventBusProducer.catchResult, htype]
  · intro e hce htype
    simp [StripeEventBusProducer.handler, hk, hs, hsig, he, hb, hce,
      StripeEventBusProducer.catchResult, htype]
  · intro ev hce hput
    constructor
    · simp [StripeEventBusProducer.handler, hk, hs, hsig, he, hb, hce, hput]
    · simp [StripeEventBusProducer.handler, hk, hs, hsig, he, hb, hce, hput,
        StripeEventBusProducer.publishedOkCount]

/-- C8 witness: the theorem applied to a signature-verification failure
(HTTP 400 with the message), a plain error (HTTP 500), and a fully
successful run (HTTP 200 with one successful publish). -/
theorem producer_signature_error_maps_to_400_witness :
    (StripeEventBusProducer.handler Fixtures.producerEnvSigErr Fixtures.producerEventOk).1 =
      { statusCode := 400,
        body := "Webhook Error: No signatures found matching the expected signature" } ∧
    (StripeEventBusProducer.handler Fixtures.producerEnvOtherErr Fixtures.producerEventOk).1 =
      { statusCode := 500, body := "Error: Unexpected token in JSON" } ∧
    ((StripeEventBusProducer.handler Fixtures.producerEnvOk Fixtures.producerEventOk).1 =
        { statusCode := 200, body := "Success" } ∧
      StripeEventBusProducer.publishedOkCount
        (StripeEventBusProducer.handler Fixtures.producerEnvOk
          Fixtures.producerEventOk).2 = 1) :=
  ⟨(producer_signature_error_maps_to_400 Fixtures.producerEnvSigErr Fixtures.producerEventOk
      "sk_test_value" "whsec_abc" "t=1,v1=sig" "payload-json"
      rfl rfl (by decide) rfl rfl).1
      { type := some "StripeSignatureVerificationError",
        message := "No signatures found matching the expected signature" } rfl rfl,
   (producer_signature_error_maps_to_400 Fixtures.producerEnvOtherErr Fixtures.producerEventOk
      "sk_test_value" "whsec_abc" "t=1,v1=sig" "payload-json"
      rfl rfl (by decide) rfl rfl).2.1
      { type := none, message := "Unexpected token in JSON" } rfl (by decide),
   (producer_signature_error_maps_to_400 Fixtures.producerEnvOk Fixtures.producerEventOk
      "sk_test_value" "whsec_abc" "t=1,v1=sig" "payload-json"
      rfl rfl (by decide) rfl rfl).2.2
      { type := "charge.succeeded", detailsJson := "details-of-charge" } rfl rfl⟩

/-- A producer run either ends 200/Success with exactly one successful
publish, or no successful publish happened at all. -/
theorem producer_run_cases (env : StripeEventBusProducer.ProducerEnv)
    (event : StripeEventBusProducer.ApiGatewayEvent) :
    ((StripeEventBusProducer.handler env event).1 =
        { statusCode := 200, body := "Success" } ∧
      StripeEventBusProducer.publishedOkCount
        (StripeEventBusProducer.handler env event).2 = 1) ∨
    StripeEventBusProducer.publishedOkCount
      (StripeEventBusProducer.handler env event).2 = 0 := by
  simp only [StripeEventBusProducer.handler]
  split
  all_goals try split
  all_goals try split
  all_goals try split
  all_goals try split
  all_goals try split
  all_goals try split
  all_goals
    first
      | (left
         exact ⟨rfl, by simp [StripeEventBusProducer.publishedOkCount]⟩)
      | (right
         simp [StripeEventBusProducer.publishedOkCount])

/-- C10. A request lacking the `Stripe-Signature` header yields HTTP 500 —
not 400 — with the missing-signature message; a request with a null body
yields HTTP 500 with the missing-body message; and on every run that does
not end with HTTP 200 no event was successfully published. -/
theorem producer_missing_inputs_500_no_publish :
    (∀ (env : StripeEventBusProducer.ProducerEnv)
        (event : StripeEventBusProducer.ApiGatewayEvent) (key : String),
      env.apiSecret = Except.ok key →
      StripeEventBusProducer.lookupHeader event.headers "Stripe-Signature" = none →
      (StripeEventBusProducer.handler env event).1 =
        { statusCode := 500, body := "Error: Stripe signature is missing" }) ∧
    (∀ (env : StripeEventBusProducer.ProducerEnv)
        (event : StripeEventBusProducer.ApiGatewayEvent) (key es sig : String),
      env.apiSecret = Except.ok key →
      StripeEventBusProducer.lookupHeader event.headers "Stripe-Signature" = some sig →
      sig ≠ "" →
      env.endpointSecret = Except.ok es →
      event.body = none →
      (StripeEventBusProducer.handler env event).1 =
        { statusCode := 500, body := "Error: event body undefined or null" }) ∧
    (∀ (env : StripeEventBusProducer.ProducerEnv)
        (event : StripeEventBusProducer.ApiGatewayEvent),
      (StripeEventBusProducer.handler env event).1.statusCode ≠ 200 →
      StripeEventBusProducer.publishedOkCount
        (StripeEventBusProducer.handler env event).2 = 0) := by
  refine ⟨?_, ?_, ?_⟩
  · intro env event key hk hs
    simp [StripeEventBusProducer.handler, hk, hs, StripeEventBusProducer.catchResult]
  · intro env event key es sig hk hs hsig he hb
    simp [StripeEventBusProducer.handler, hk, hs, hsig, he, hb,
      StripeEventBusProducer.catchResult]
  · intro env event h
    rcases producer_run_cases env event with ⟨h200, _⟩ | h0
    · exact absurd (by rw [h200]) h
    · exact h0

/-- C10 witness: a request without the signature header and a request
without a body each get HTTP 500 against an otherwise healthy
environment, and the no-signature run published nothing. -/
theorem producer_missing_inputs_500_no_publish_witness :
    (StripeEventBusProducer.handler Fixtures.producerEnvOk Fixtures.producerEventNoSig).1 =
      { statusCode := 500, body := "Error: Stripe signature is missing" } ∧
    (StripeEventBusProducer.handler Fixtures.producerEnvOk Fixtures.producerEventNoBody).1 =
      { statusCode := 500, body := "Error: event body undefined or null" } ∧
    StripeEventBusProducer.publishedOkCount
      (StripeEventBusProducer.handler Fixtures.producerEnvOk
        Fixtures.producerEventNoSig).2 = 0 :=
  ⟨producer_missing_inputs_500_no_publish.1 Fixtures.producerEnvOk
      Fixtures.producerEventNoSig "sk_test_value" rfl rfl,
   producer_missing_inputs_500_no_publish.2.1 Fixtures.producerEnvOk
      Fixtures.producerEventNoBody "sk_test_value" "whsec_abc" "t=1,v1=sig"
      rfl rfl (by decide) rfl rfl,
   producer_missing_inputs_500_no_publish.2.2 Fixtures.producerEnvOk
      Fixtures.producerEventNoSig (by decide)⟩
